import Mathlib

/-!
Verification development for the MCPXcode repository (src/main.py, src/xcrun.py,
src/xctrace.py).

The repository is a thin wrapper around external developer tools: every exposed
operation builds an argument vector, runs it with `subprocess.run`, and
translates the captured output (or the non-zero exit status) into a result or a
raised exception.

Shallow embedding conventions:
* `subprocess.run` is modelled by a parameter `run : List String → ProcOutput`
  giving, for every argument vector, the standard output, standard error and
  exit status of the spawned process.
* `subprocess.run(..., check=True)` raises `CalledProcessError` exactly when
  the exit status is non-zero.  Whether `capture_output=True` was passed
  determines the `stderr` attribute of that exception: captured text when it
  was, Python `None` when it was not (`capturedStderr`).  Interpolating `None`
  into an f-string produces the text "None" (`pyFStr`).
* Exceptions raised by the wrappers are `PyError.exc msg`; a
  `json.JSONDecodeError` escaping the `try` block (only
  `subprocess.CalledProcessError` is caught) is `PyError.jsonDecode`; an
  `AttributeError` escaping likewise is `PyError.attrError`.
* `json.loads` is Python standard-library code, outside this repository; it is
  modelled as a parameter `parse : String → Except String PyJson`.
* Python `dict` values are modelled as association lists in insertion order,
  which is also the iteration order of a Python dict.
-/

/-- The observable behaviour of one spawned OS process: captured standard
output and standard error text and the integer exit status
(`subprocess.CompletedProcess`). -/
structure ProcOutput where
  stdout : String
  stderr : String
  exitCode : Nat
deriving DecidableEq

/-- The failure outcomes a wrapper call can produce.  `exc` is the
`raise Exception(...)` performed by every `except subprocess.CalledProcessError`
handler; `jsonDecode` is a `json.JSONDecodeError` that escapes the `try` block
uncaught; `attrError` is an `AttributeError` escaping likewise. -/
inductive PyError where
  | exc (msg : String)
  | jsonDecode (msg : String)
  | attrError (msg : String)
deriving DecidableEq

/-- Python JSON documents as returned by `json.loads`. -/
inductive PyJson where
  | null
  | bool (b : Bool)
  | num (n : Int)
  | str (s : String)
  | arr (elems : List PyJson)
  | obj (entries : List (String × PyJson))

/-- The `stderr` attribute of a `CalledProcessError`: the captured stream when
`capture_output=True` was passed to `subprocess.run`, Python `None` otherwise. -/
def capturedStderr (capture : Bool) (r : ProcOutput) : Option String :=
  if capture then some r.stderr else none

/-- Interpolation of an optional string into a Python f-string: `None` renders
as the four characters "None". -/
def pyFStr : Option String → String
  | some s => s
  | none => "None"

/-- The characters `str.strip()` removes (the ASCII whitespace class Python
strips; stdout of the wrapped tools is ASCII text). -/
def pyIsSpace (c : Char) : Bool :=
  c = ' ' || c = '\t' || c = '\n' || c = '\x0d' || c = '\x0b' || c = '\x0c'

/-- `str.strip()` on a character list: drop whitespace from the front, then
from the back (by reversing, dropping, and reversing again). -/
def stripChars (l : List Char) : List Char :=
  ((l.dropWhile pyIsSpace).reverse.dropWhile pyIsSpace).reverse

/-- Python `str.strip()`: the string with surrounding whitespace removed. -/
def pyStrip (s : String) : String :=
  ⟨stripChars s.data⟩

/-- The line-boundary characters recognised by Python `str.splitlines()`. -/
def isLineBoundary (c : Char) : Bool :=
  c = '\n' || c = '\x0d' || c = '\x0b' || c = '\x0c' ||
  c = Char.ofNat 0x1c || c = Char.ofNat 0x1d || c = Char.ofNat 0x1e ||
  c = Char.ofNat 0x85 || c = Char.ofNat 0x2028 || c = Char.ofNat 0x2029

/-- Worker for `str.splitlines()`: `acc` holds the characters of the current
line in reverse.  A carriage return immediately followed by a newline counts as
one boundary; a final line without a terminator is still emitted; a trailing
terminator does not create an extra empty line. -/
def splitlinesChars : List Char → List Char → List String
  | [], acc => if acc.isEmpty then [] else [⟨acc.reverse⟩]
  | '\x0d' :: '\n' :: rest, acc => ⟨acc.reverse⟩ :: splitlinesChars rest []
  | c :: rest, acc =>
    if isLineBoundary c then ⟨acc.reverse⟩ :: splitlinesChars rest []
    else splitlinesChars rest (c :: acc)

/-- Python `str.splitlines()`: split on line boundaries, keeping empty interior
lines and dropping a trailing terminator. -/
def pySplitlines (s : String) : List String :=
  splitlinesChars s.data []

/-- Lookup in a Python dict modelled as an association list
(insertion order; keys are unique in a dict decoded from JSON). -/
def lookupStr : List (String × PyJson) → String → Option PyJson
  | [], _ => none
  | (k, v) :: rest, key => if k = key then some v else lookupStr rest key

/-- Python `value.get(key, default)`: defined on dicts only; on every other
JSON value the attribute lookup `.get` raises an `AttributeError`. -/
def pyGet (j : PyJson) (key : String) (default : PyJson) : Except String PyJson :=
  match j with
  | .obj entries => .ok ((lookupStr entries key).getD default)
  | _ => .error "AttributeError"

/-- Flattening of a map-valued option: one `flag` token followed by one
`key=value` token per entry, in iteration (= insertion) order
(the `for key, value in d.items():` loops of `record_with_options`). -/
def pairsArgs (flag : String) : List (String × String) → List String
  | [] => []
  | (k, v) :: rest => flag :: (k ++ "=" ++ v) :: pairsArgs flag rest

/-- `if time_limit: cmd.extend(['--time-limit', str(time_limit)])` —
Python truthiness: both `None` and `0` are falsy and contribute nothing. -/
def timeLimitArgs : Option Int → List String
  | none => []
  | some n => if n = 0 then [] else ["--time-limit", toString n]

/-- `if template_options: for key, value in template_options.items(): ...` —
an absent or empty dict contributes nothing. -/
def templateOptionsArgs : Option (List (String × String)) → List String
  | none => []
  | some opts => if opts.isEmpty then [] else pairsArgs "--template-option" opts

/-- `if launch_args: cmd.extend(['--launch-args', ' '.join(launch_args)])` —
all launch arguments are joined with single spaces into one token. -/
def launchArgsArgs : Option (List String) → List String
  | none => []
  | some la => if la.isEmpty then [] else ["--launch-args", String.intercalate " " la]

/-- `if env_vars: for key, value in env_vars.items(): ...` -/
def envVarsArgs : Option (List (String × String)) → List String
  | none => []
  | some vars => if vars.isEmpty then [] else pairsArgs "--setenv" vars

/-- `if destination: cmd.extend(['-destination', destination])` —
Python truthiness: `None` and the empty string are falsy. -/
def destinationArgs : Option String → List String
  | none => []
  | some d => if d.isEmpty then [] else ["-destination", d]

/-- The fixed part of the `xctrace record` argument vector
(`record` and `record_with_options`, src/xctrace.py). -/
def record_base_cmd (template device_id app_bundle_id output_path : String) : List String :=
  ["xctrace", "record",
   "--template", template,
   "--device", device_id,
   "--target", app_bundle_id,
   "--output", output_path]

/-- The argument vector built by `record` (src/xctrace.py lines 43-52). -/
def record_cmd (template device_id app_bundle_id output_path : String)
    (time_limit : Option Int) : List String :=
  record_base_cmd template device_id app_bundle_id output_path
    ++ timeLimitArgs time_limit

/-- The argument vector built by `record_with_options`
(src/xctrace.py lines 98-121). -/
def record_with_options_cmd (template device_id app_bundle_id output_path : String)
    (time_limit : Option Int) (template_options : Option (List (String × String)))
    (launch_args : Option (List String)) (env_vars : Option (List (String × String))) :
    List String :=
  record_base_cmd template device_id app_bundle_id output_path
    ++ timeLimitArgs time_limit
    ++ templateOptionsArgs template_options
    ++ launchArgsArgs launch_args
    ++ envVarsArgs env_vars

/-- The argument vector built by `attach` (src/xctrace.py lines 139-147). -/
def attach_cmd (pid : Int) (template output_path : String)
    (time_limit : Option Int) : List String :=
  ["xctrace", "attach",
   "--pid", toString pid,
   "--template", template,
   "--output", output_path]
    ++ timeLimitArgs time_limit

/-- The argument vector built by `xcodebuild_build` (src/xcrun.py lines 46-55). -/
def xcodebuild_build_cmd (project_path scheme configuration sdk : String)
    (destination : Option String) : List String :=
  ["xcrun", "xcodebuild",
   "-project", project_path,
   "-scheme", scheme,
   "-configuration", configuration,
   "-sdk", sdk]
    ++ destinationArgs destination

/-! ### Exposed operations, result view

Each operation takes the process oracle `run` (and for JSON operations the
standard-library decoder `parse`) and returns `Except PyError` of its caller
value.  The `if r.exitCode = 0` split mirrors `check=True`: a non-zero exit
raises `CalledProcessError`, which the `except` handler turns into
`Exception(f"... {e.stderr}")`; on zero exit the body after `subprocess.run`
continues. -/

/-- `list_devices` (src/main.py lines 23-39): `xcrun simctl list devices --json`,
stdout decoded as JSON; output is captured. -/
def list_devices (parse : String → Except String PyJson)
    (run : List String → ProcOutput) : Except PyError PyJson :=
  let r := run ["xcrun", "simctl", "list", "devices", "--json"]
  if r.exitCode = 0 then
    match parse r.stdout with
    | .ok j => .ok j
    | .error e => .error (.jsonDecode e)
  else
    .error (.exc ("Failed to list devices: " ++ pyFStr (capturedStderr true r)))

/-- `boot_device` (src/main.py lines 41-60): `xcrun simctl boot <device_id>`;
output is captured; success returns a fixed confirmation string. -/
def boot_device (device_id : String) (run : List String → ProcOutput) :
    Except PyError String :=
  let r := run ["xcrun", "simctl", "boot", device_id]
  if r.exitCode = 0 then
    .ok ("Successfully booted device " ++ device_id)
  else
    .error (.exc ("Failed to boot device: " ++ pyFStr (capturedStderr true r)))

/-- `get_sdk_path` (src/main.py lines 128-144): `xcrun --show-sdk-path`,
stdout stripped of surrounding whitespace. -/
def get_sdk_path (run : List String → ProcOutput) : Except PyError String :=
  let r := run ["xcrun", "--show-sdk-path"]
  if r.exitCode = 0 then
    .ok (pyStrip r.stdout)
  else
    .error (.exc ("Failed to get SDK path: " ++ pyFStr (capturedStderr true r)))

/-- `get_sdk_version` (src/main.py lines 146-162): `xcrun --show-sdk-version`. -/
def get_sdk_version (run : List String → ProcOutput) : Except PyError String :=
  let r := run ["xcrun", "--show-sdk-version"]
  if r.exitCode = 0 then
    .ok (pyStrip r.stdout)
  else
    .error (.exc ("Failed to get SDK version: " ++ pyFStr (capturedStderr true r)))

/-- `get_sdk_platform_path` (src/main.py lines 164-180):
`xcrun --show-sdk-platform-path`. -/
def get_sdk_platform_path (run : List String → ProcOutput) : Except PyError String :=
  let r := run ["xcrun", "--show-sdk-platform-path"]
  if r.exitCode = 0 then
    .ok (pyStrip r.stdout)
  else
    .error (.exc ("Failed to get SDK platform path: " ++ pyFStr (capturedStderr true r)))

/-- `find_developer_tool` (src/main.py lines 182-201): `xcrun -f <tool_name>`. -/
def find_developer_tool (tool_name : String) (run : List String → ProcOutput) :
    Except PyError String :=
  let r := run ["xcrun", "-f", tool_name]
  if r.exitCode = 0 then
    .ok (pyStrip r.stdout)
  else
    .error (.exc ("Failed to find tool " ++ tool_name ++ ": " ++
      pyFStr (capturedStderr true r)))

/-- `list_devices` of src/xctrace.py (lines 11-18), imported by main.py as
`xctrace_list_devices`: `xctrace list devices --json`. -/
def xctrace_list_devices (parse : String → Except String PyJson)
    (run : List String → ProcOutput) : Except PyError PyJson :=
  let r := run ["xctrace", "list", "devices", "--json"]
  if r.exitCode = 0 then
    match parse r.stdout with
    | .ok j => .ok j
    | .error e => .error (.jsonDecode e)
  else
    .error (.exc ("Failed to list devices: " ++ pyFStr (capturedStderr true r)))

/-- `list_templates` (src/xctrace.py lines 21-28): `xctrace list templates --json`. -/
def list_templates (parse : String → Except String PyJson)
    (run : List String → ProcOutput) : Except PyError PyJson :=
  let r := run ["xctrace", "list", "templates", "--json"]
  if r.exitCode = 0 then
    match parse r.stdout with
    | .ok j => .ok j
    | .error e => .error (.jsonDecode e)
  else
    .error (.exc ("Failed to list templates: " ++ pyFStr (capturedStderr true r)))

/-- `record` (src/xctrace.py lines 31-57).  `subprocess.run(cmd, check=True)`
is invoked without `capture_output`, so the `stderr` attribute of a
`CalledProcessError` is `None` and the f-string renders it as "None". -/
def record (template device_id app_bundle_id output_path : String)
    (time_limit : Option Int) (run : List String → ProcOutput) :
    Except PyError Unit :=
  let r := run (record_cmd template device_id app_bundle_id output_path time_limit)
  if r.exitCode = 0 then
    .ok ()
  else
    .error (.exc ("Failed to record trace: " ++ pyFStr (capturedStderr false r)))

/-- `export` (src/xctrace.py lines 60-77); named `export_trace` here because
`export` is a Lean keyword.  No output capture. -/
def export_trace (trace_path output_path ty : String)
    (run : List String → ProcOutput) : Except PyError Unit :=
  let r := run ["xctrace", "export", "--input", trace_path,
                "--output", output_path, "--type", ty]
  if r.exitCode = 0 then
    .ok ()
  else
    .error (.exc ("Failed to export trace: " ++ pyFStr (capturedStderr false r)))

/-- `record_with_options` (src/xctrace.py lines 80-126).  No output capture. -/
def record_with_options (template device_id app_bundle_id output_path : String)
    (time_limit : Option Int) (template_options : Option (List (String × String)))
    (launch_args : Option (List String)) (env_vars : Option (List (String × String)))
    (run : List String → ProcOutput) : Except PyError Unit :=
  let r := run (record_with_options_cmd template device_id app_bundle_id output_path
    time_limit template_options launch_args env_vars)
  if r.exitCode = 0 then
    .ok ()
  else
    .error (.exc ("Failed to record trace: " ++ pyFStr (capturedStderr false r)))

/-- `attach` (src/xctrace.py lines 129-152).  No output capture. -/
def attach (pid : Int) (template output_path : String) (time_limit : Option Int)
    (run : List String → ProcOutput) : Except PyError Unit :=
  let r := run (attach_cmd pid template output_path time_limit)
  if r.exitCode = 0 then
    .ok ()
  else
    .error (.exc ("Failed to attach tracer: " ++ pyFStr (capturedStderr false r)))

/-- `diagnose_archive` (src/xctrace.py lines 155-170).  No output capture. -/
def diagnose_archive (archive_path output_dir : String)
    (run : List String → ProcOutput) : Except PyError Unit :=
  let r := run ["xctrace", "diagnose", "--input", archive_path,
                "--output", output_dir]
  if r.exitCode = 0 then
    .ok ()
  else
    .error (.exc ("Failed to diagnose archive: " ++ pyFStr (capturedStderr false r)))

/-- `document_template` (src/xctrace.py lines 173-194): output is captured; on
success the captured stdout is written to `output_path` (see the effect view
`document_template_effects`; a failure of that file write raises a separate
`IOError`-derived message and is outside the process model). -/
def document_template (template output_path : String)
    (run : List String → ProcOutput) : Except PyError Unit :=
  let r := run ["xctrace", "document-template", "--template", template]
  if r.exitCode = 0 then
    .ok ()
  else
    .error (.exc ("Failed to document template: " ++ pyFStr (capturedStderr true r)))

/-- `analyze_trace` (src/xctrace.py lines 197-215): creates the output
directory with `os.makedirs` before spawning; no output capture. -/
def analyze_trace (trace_path output_dir : String)
    (run : List String → ProcOutput) : Except PyError Unit :=
  let r := run ["xctrace", "analyze", "--input", trace_path,
                "--output", output_dir]
  if r.exitCode = 0 then
    .ok ()
  else
    .error (.exc ("Failed to analyze trace: " ++ pyFStr (capturedStderr false r)))

/-- `compare_traces` (src/xctrace.py lines 218-235).  No output capture. -/
def compare_traces (base_trace comparison_trace output_path : String)
    (run : List String → ProcOutput) : Except PyError Unit :=
  let r := run ["xctrace", "compare", "--base", base_trace,
                "--compare", comparison_trace, "--output", output_path]
  if r.exitCode = 0 then
    .ok ()
  else
    .error (.exc ("Failed to compare traces: " ++ pyFStr (capturedStderr false r)))

/-- `xcodebuild_list_sdks` (src/xcrun.py lines 10-17):
`xcrun xcodebuild -showsdks -json`, stdout decoded as JSON. -/
def xcodebuild_list_sdks (parse : String → Except String PyJson)
    (run : List String → ProcOutput) : Except PyError PyJson :=
  let r := run ["xcrun", "xcodebuild", "-showsdks", "-json"]
  if r.exitCode = 0 then
    match parse r.stdout with
    | .ok j => .ok j
    | .error e => .error (.jsonDecode e)
  else
    .error (.exc ("Failed to list SDKs: " ++ pyFStr (capturedStderr true r)))

/-- `xcodebuild_list_schemes` (src/xcrun.py lines 20-32): decodes stdout as
JSON then evaluates `data.get('project', {}).get('schemes', [])`.  An
`AttributeError` from `.get` on a non-dict escapes the `try` block. -/
def xcodebuild_list_schemes (project_path : String)
    (parse : String → Except String PyJson)
    (run : List String → ProcOutput) : Except PyError PyJson :=
  let r := run ["xcrun", "xcodebuild", "-list", "-project", project_path, "-json"]
  if r.exitCode = 0 then
    match parse r.stdout with
    | .error e => .error (.jsonDecode e)
    | .ok data =>
      match pyGet data "project" (.obj []) with
      | .error e => .error (.attrError e)
      | .ok proj =>
        match pyGet proj "schemes" (.arr []) with
        | .error e => .error (.attrError e)
        | .ok schemes => .ok schemes
  else
    .error (.exc ("Failed to list schemes: " ++ pyFStr (capturedStderr true r)))

/-- `xcodebuild_build` (src/xcrun.py lines 35-61): raw stdout on success. -/
def xcodebuild_build (project_path scheme configuration sdk : String)
    (destination : Option String) (run : List String → ProcOutput) :
    Except PyError String :=
  let r := run (xcodebuild_build_cmd project_path scheme configuration sdk destination)
  if r.exitCode = 0 then
    .ok r.stdout
  else
    .error (.exc ("Build failed: " ++ pyFStr (capturedStderr true r)))

/-- `swift_symbols` (src/xcrun.py lines 104-115): stdout split into lines. -/
def swift_symbols (binary_path : String) (run : List String → ProcOutput) :
    Except PyError (List String) :=
  let r := run ["xcrun", "swift-demangle", binary_path]
  if r.exitCode = 0 then
    .ok (pySplitlines r.stdout)
  else
    .error (.exc ("Failed to extract symbols: " ++ pyFStr (capturedStderr true r)))

/-- `otool_headers` (src/xcrun.py lines 118-129): stdout split into lines. -/
def otool_headers (binary_path : String) (run : List String → ProcOutput) :
    Except PyError (List String) :=
  let r := run ["xcrun", "otool", "-h", binary_path]
  if r.exitCode = 0 then
    .ok (pySplitlines r.stdout)
  else
    .error (.exc ("Failed to show headers: " ++ pyFStr (capturedStderr true r)))

/-- `otool_libraries` (src/xcrun.py lines 132-143): stdout split into lines. -/
def otool_libraries (binary_path : String) (run : List String → ProcOutput) :
    Except PyError (List String) :=
  let r := run ["xcrun", "otool", "-L", binary_path]
  if r.exitCode = 0 then
    .ok (pySplitlines r.stdout)
  else
    .error (.exc ("Failed to show linked libraries: " ++ pyFStr (capturedStderr true r)))

/-- `nm_symbols` (src/xcrun.py lines 146-157): stdout split into lines. -/
def nm_symbols (binary_path : String) (run : List String → ProcOutput) :
    Except PyError (List String) :=
  let r := run ["xcrun", "nm", binary_path]
  if r.exitCode = 0 then
    .ok (pySplitlines r.stdout)
  else
    .error (.exc ("Failed to show symbols: " ++ pyFStr (capturedStderr true r)))

/-! ### Effect view

For the frame claim the side effects a wrapper performs itself are made
explicit as an ordered effect trace: spawning the child process, `os.makedirs`,
and writing a file with `open(...).write(...)`. -/

/-- A side effect performed by wrapper code itself (not by the external binary). -/
inductive Effect where
  | spawn (cmd : List String)
  | makedirs (dir : String)
  | fileWrite (path : String) (contents : String)
deriving DecidableEq

/-- Is this effect the spawning of an OS process? -/
def isSpawn : Effect → Bool
  | .spawn _ => true
  | _ => false

/-- Does a call's effect trace consist of process spawns only? -/
def onlySpawns (l : List Effect) : Bool :=
  l.all isSpawn

/-- Effect trace of `boot_device` (src/main.py lines 41-60): one spawn. -/
def boot_device_effects (device_id : String) : List Effect :=
  [.spawn ["xcrun", "simctl", "boot", device_id]]

/-- Effect trace of `record` (src/xctrace.py lines 31-57): one spawn. -/
def record_effects (template device_id app_bundle_id output_path : String)
    (time_limit : Option Int) : List Effect :=
  [.spawn (record_cmd template device_id app_bundle_id output_path time_limit)]

/-- Effect trace of `compare_traces` (src/xctrace.py lines 218-235): one spawn. -/
def compare_traces_effects (base_trace comparison_trace output_path : String) :
    List Effect :=
  [.spawn ["xctrace", "compare", "--base", base_trace,
           "--compare", comparison_trace, "--output", output_path]]

/-- Effect trace of `analyze_trace` (src/xctrace.py lines 197-215):
`os.makedirs(output_dir, exist_ok=True)` runs before the spawn. -/
def analyze_trace_effects (trace_path output_dir : String) : List Effect :=
  [.makedirs output_dir,
   .spawn ["xctrace", "analyze", "--input", trace_path, "--output", output_dir]]

/-- Effect trace of `document_template` (src/xctrace.py lines 173-194): after a
successful spawn the captured stdout is written to `output_path` with
`open(output_path, 'w')` / `f.write(result.stdout)`. -/
def document_template_effects (template output_path : String)
    (run : List String → ProcOutput) : List Effect :=
  let cmd := ["xctrace", "document-template", "--template", template]
  let r := run cmd
  Effect.spawn cmd ::
    (if r.exitCode = 0 then [Effect.fileWrite output_path r.stdout] else [])

/-! ### Helper lemmas -/

/-- A `key=value` token always contains the character '='. -/
theorem eq_mem_eqToken (k v : String) : '=' ∈ (k ++ "=" ++ v).data := by
  rw [String.data_append, String.data_append]
  refine List.mem_append.mpr (Or.inl (List.mem_append.mpr (Or.inr ?_)))
  decide

/-- A `key=value` token never equals a string without '=' (such as a flag). -/
theorem eqToken_ne (k v s : String) (hs : '=' ∈ s.data → False) :
    k ++ "=" ++ v ≠ s :=
  fun h => hs (h ▸ eq_mem_eqToken k v)

/-- Each entry of a map parameter contributes exactly one occurrence of its
flag token to the flattened segment. -/
theorem count_pairsArgs_self (flag : String) (hf : '=' ∈ flag.data → False)
    (l : List (String × String)) :
    (pairsArgs flag l).count flag = l.length := by
  induction l with
  | nil => rfl
  | cons kv rest ih =>
    obtain ⟨k, v⟩ := kv
    simp [pairsArgs, List.count_cons, ih, eqToken_ne k v flag hf]

/-- A flattened map segment contains no occurrence of a different flag token
(one that is not the segment's own flag and contains no '='). -/
theorem count_pairsArgs_other (flag g : String) (hg : g ≠ flag)
    (hge : '=' ∈ g.data → False) (l : List (String × String)) :
    (pairsArgs flag l).count g = 0 := by
  induction l with
  | nil => rfl
  | cons kv rest ih =>
    obtain ⟨k, v⟩ := kv
    simp [pairsArgs, List.count_cons, ih, eqToken_ne k v g hge, Ne.symm hg]

/-- The right operand of a string append occurs in the result as a contiguous
character run (the error text embeds the interpolated stderr). -/
theorem infix_append_left (p e : String) : e.data <:+: (p ++ e).data :=
  ⟨p.data, [], by simp⟩

/-- `str.strip()` only removes characters at the two ends: the input splits as
whitespace, the stripped result, whitespace. -/
theorem stripChars_decomp (l : List Char) :
    ∃ pre suf, l = pre ++ stripChars l ++ suf ∧
      pre.all pyIsSpace ∧ suf.all pyIsSpace := by
  refine ⟨l.takeWhile pyIsSpace,
    ((l.dropWhile pyIsSpace).reverse.takeWhile pyIsSpace).reverse, ?_, ?_, ?_⟩
  · conv_lhs => rw [← List.takeWhile_append_dropWhile (p := pyIsSpace) (l := l)]
    rw [List.append_assoc]
    congr 1
    conv_lhs => rw [← List.reverse_reverse (l.dropWhile pyIsSpace),
      ← List.takeWhile_append_dropWhile (p := pyIsSpace)
        (l := (l.dropWhile pyIsSpace).reverse),
      List.reverse_append]
    rfl
  · rw [List.all_eq_true]
    intro x hx
    exact List.mem_takeWhile_imp hx
  · rw [List.all_reverse, List.all_eq_true]
    intro x hx
    exact List.mem_takeWhile_imp hx

/-- The first character of a stripped string is not whitespace. -/
theorem stripChars_head (l : List Char) (c : Char)
    (h : (stripChars l).head? = some c) : pyIsSpace c = false := by
  have hd := List.head?_dropWhile_not pyIsSpace l
  have hsplit : l.dropWhile pyIsSpace =
      stripChars l ++ ((l.dropWhile pyIsSpace).reverse.takeWhile pyIsSpace).reverse := by
    conv_lhs => rw [← List.reverse_reverse (l.dropWhile pyIsSpace),
      ← List.takeWhile_append_dropWhile (p := pyIsSpace)
        (l := (l.dropWhile pyIsSpace).reverse),
      List.reverse_append]
    rfl
  cases hsc : stripChars l with
  | nil => rw [hsc] at h; simp at h
  | cons a rest =>
    rw [hsc] at h
    simp at h
    rw [hsplit, hsc] at hd
    simp at hd
    rwa [h] at hd

/-- The last character of a stripped string is not whitespace. -/
theorem stripChars_getLast (l : List Char) (c : Char)
    (h : (stripChars l).getLast? = some c) : pyIsSpace c = false := by
  have hd := List.head?_dropWhile_not pyIsSpace (l.dropWhile pyIsSpace).reverse
  unfold stripChars at h
  rw [List.getLast?_reverse] at h
  rw [h] at hd
  simpa using hd

/-! ### Claims -/

/-- Claim C2: booting device "ABC-123" when the simulator-control tool exits 0
returns exactly "Successfully booted device ABC-123"; when the tool exits 1
with stderr "no such device" the call fails with the boot-device error
("Failed to boot device: ...") whose message contains "no such device". -/
theorem boot_device_scenario (run0 run1 : List String → ProcOutput)
    (h0 : (run0 ["xcrun", "simctl", "boot", "ABC-123"]).exitCode = 0)
    (h1 : (run1 ["xcrun", "simctl", "boot", "ABC-123"]).exitCode = 1)
    (h2 : (run1 ["xcrun", "simctl", "boot", "ABC-123"]).stderr = "no such device") :
    boot_device "ABC-123" run0 = .ok "Successfully booted device ABC-123" ∧
    boot_device "ABC-123" run1 =
      .error (.exc "Failed to boot device: no such device") ∧
    "no such device".data <:+: "Failed to boot device: no such device".data := by
  refine ⟨?_, ?_, by decide⟩
  · simp [boot_device, h0]
  · simp [boot_device, h1, h2, capturedStderr, pyFStr]

/-- Witness for C2 at concrete process oracles. -/
theorem boot_device_scenario_witness :
    boot_device "ABC-123" (fun _ => ⟨"", "", 0⟩) =
      .ok "Successfully booted device ABC-123" :=
  (boot_device_scenario (fun _ => ⟨"", "", 0⟩)
    (fun _ => ⟨"", "no such device", 1⟩) rfl rfl rfl).1

/-- Claim C3 is false as stated: a present time limit of zero is falsy in
Python, so `record` with `time_limit=0` builds an argument vector without any
"--time-limit" flag — identical to the vector built with no time limit. -/
theorem record_zero_time_limit_dropped :
    record_cmd "Time Profiler" "DEV-1" "com.example.app" "/tmp/out.trace" (some 0)
      = record_cmd "Time Profiler" "DEV-1" "com.example.app" "/tmp/out.trace" none ∧
    ¬ ("--time-limit" ∈
      record_cmd "Time Profiler" "DEV-1" "com.example.app" "/tmp/out.trace" (some 0)) :=
  ⟨rfl, by decide⟩

/-- Claim C3 (amended): an optional parameter that is present and truthy (a
non-zero time limit, a non-empty destination) appends its fixed flag followed
by its value; an absent or falsy optional parameter (None, zero, empty string)
contributes no tokens at all. -/
theorem optional_params_amended (t d a o p s c k dst : String) (n pid : Int)
    (hn : n ≠ 0) (hdst : dst ≠ "") :
    record_cmd t d a o none = record_base_cmd t d a o ∧
    record_cmd t d a o (some 0) = record_base_cmd t d a o ∧
    record_cmd t d a o (some n) =
      record_base_cmd t d a o ++ ["--time-limit", toString n] ∧
    attach_cmd pid t o none =
      ["xctrace", "attach", "--pid", toString pid, "--template", t, "--output", o] ∧
    attach_cmd pid t o (some 0) =
      ["xctrace", "attach", "--pid", toString pid, "--template", t, "--output", o] ∧
    attach_cmd pid t o (some n) =
      ["xctrace", "attach", "--pid", toString pid, "--template", t, "--output", o]
        ++ ["--time-limit", toString n] ∧
    xcodebuild_build_cmd p s c k none =
      ["xcrun", "xcodebuild", "-project", p, "-scheme", s,
       "-configuration", c, "-sdk", k] ∧
    xcodebuild_build_cmd p s c k (some "") =
      ["xcrun", "xcodebuild", "-project", p, "-scheme", s,
       "-configuration", c, "-sdk", k] ∧
    xcodebuild_build_cmd p s c k (some dst) =
      ["xcrun", "xcodebuild", "-project", p, "-scheme", s,
       "-configuration", c, "-sdk", k] ++ ["-destination", dst] ∧
    record_with_options_cmd t d a o (some n) none none none =
      record_cmd t d a o (some n) := by
  refine ⟨rfl, rfl, ?_, rfl, rfl, ?_, rfl, rfl, ?_, ?_⟩
  · simp [record_cmd, timeLimitArgs, hn]
  · simp [attach_cmd, timeLimitArgs, hn]
  · simp [xcodebuild_build_cmd, destinationArgs, String.isEmpty_iff, hdst]
  · simp [record_with_options_cmd, record_cmd, templateOptionsArgs,
      launchArgsArgs, envVarsArgs]

/-- Witness for the amended C3 at concrete inputs. -/
theorem optional_params_amended_witness :
    record_cmd "T" "D" "A" "O" (some 30) =
      record_base_cmd "T" "D" "A" "O" ++ ["--time-limit", "30"] :=
  (optional_params_amended "T" "D" "A" "O" "p.xcodeproj" "S" "Debug"
    "iphonesimulator" "platform=iOS" 30 42 (by decide) (by decide)).2.2.1

/-- Claim C5: every successful line-list operation returns stdout split on
line boundaries with interior empty lines retained; empty stdout gives the
empty sequence and "a\nb\n" gives exactly ["a", "b"]. -/
theorem line_list_shape (bp : String) (run : List String → ProcOutput)
    (h1 : (run ["xcrun", "swift-demangle", bp]).exitCode = 0)
    (h2 : (run ["xcrun", "otool", "-h", bp]).exitCode = 0)
    (h3 : (run ["xcrun", "otool", "-L", bp]).exitCode = 0)
    (h4 : (run ["xcrun", "nm", bp]).exitCode = 0) :
    swift_symbols bp run =
      .ok (pySplitlines (run ["xcrun", "swift-demangle", bp]).stdout) ∧
    otool_headers bp run =
      .ok (pySplitlines (run ["xcrun", "otool", "-h", bp]).stdout) ∧
    otool_libraries bp run =
      .ok (pySplitlines (run ["xcrun", "otool", "-L", bp]).stdout) ∧
    nm_symbols bp run =
      .ok (pySplitlines (run ["xcrun", "nm", bp]).stdout) ∧
    pySplitlines "" = [] ∧
    pySplitlines "a\nb\n" = ["a", "b"] ∧
    pySplitlines "a\n\nb\n" = ["a", "", "b"] := by
  refine ⟨?_, ?_, ?_, ?_, by decide, by decide, by decide⟩
  · simp [swift_symbols, h1]
  · simp [otool_headers, h2]
  · simp [otool_libraries, h3]
  · simp [nm_symbols, h4]

/-- Witness for C5 at a concrete process oracle. -/
theorem line_list_shape_witness :
    nm_symbols "/bin/app" (fun _ => ⟨"a\nb\n", "", 0⟩) = .ok ["a", "b"] :=
  (line_list_shape "/bin/app" (fun _ => ⟨"a\nb\n", "", 0⟩)
    rfl rfl rfl rfl).2.2.2.1

/-- Claim C7: every successful plain-text query returns the process's stdout
with surrounding whitespace trimmed and nothing else altered — the result is a
contiguous middle run of the stdout, the removed ends are all whitespace, and
the result neither starts nor ends with whitespace. -/
theorem plain_text_shape (tn : String) (run : List String → ProcOutput)
    (h1 : (run ["xcrun", "--show-sdk-path"]).exitCode = 0)
    (h2 : (run ["xcrun", "--show-sdk-version"]).exitCode = 0)
    (h3 : (run ["xcrun", "--show-sdk-platform-path"]).exitCode = 0)
    (h4 : (run ["xcrun", "-f", tn]).exitCode = 0) :
    get_sdk_path run = .ok (pyStrip (run ["xcrun", "--show-sdk-path"]).stdout) ∧
    get_sdk_version run =
      .ok (pyStrip (run ["xcrun", "--show-sdk-version"]).stdout) ∧
    get_sdk_platform_path run =
      .ok (pyStrip (run ["xcrun", "--show-sdk-platform-path"]).stdout) ∧
    find_developer_tool tn run = .ok (pyStrip (run ["xcrun", "-f", tn]).stdout) ∧
    (∀ s : String, ∃ pre suf,
      s.data = pre ++ (pyStrip s).data ++ suf ∧
      pre.all pyIsSpace ∧ suf.all pyIsSpace) ∧
    (∀ (s : String) (c : Char),
      ((pyStrip s).data.head? = some c → pyIsSpace c = false) ∧
      ((pyStrip s).data.getLast? = some c → pyIsSpace c = false)) := by
  refine ⟨?_, ?_, ?_, ?_, ?_, ?_⟩
  · simp [get_sdk_path, h1]
  · simp [get_sdk_version, h2]
  · simp [get_sdk_platform_path, h3]
  · simp [find_developer_tool, h4]
  · intro s
    exact stripChars_decomp s.data
  · intro s c
    exact ⟨stripChars_head s.data c, stripChars_getLast s.data c⟩

/-- Witness for C7 at a concrete process oracle. -/
theorem plain_text_shape_witness :
    get_sdk_path (fun _ => ⟨"  /sdk/path\n", "", 0⟩) = .ok "/sdk/path" :=
  (plain_text_shape "swiftc" (fun _ => ⟨"  /sdk/path\n", "", 0⟩)
    rfl rfl rfl rfl).1

/-- A present map parameter flattens to its pair segment (the empty-dict guard
and the empty flattening agree). -/
theorem templateOptionsArgs_some (l : List (String × String)) :
    templateOptionsArgs (some l) = pairsArgs "--template-option" l := by
  cases l <;> simp [templateOptionsArgs, pairsArgs]

/-- A present environment map flattens to its pair segment. -/
theorem envVarsArgs_some (l : List (String × String)) :
    envVarsArgs (some l) = pairsArgs "--setenv" l := by
  cases l <;> simp [envVarsArgs, pairsArgs]

/-- The template-options segment never contains the launch-args flag token. -/
theorem launchflag_count_templateOptions (topts : Option (List (String × String))) :
    (templateOptionsArgs topts).count "--launch-args" = 0 := by
  cases topts with
  | none => rfl
  | some l =>
    rw [templateOptionsArgs_some]
    exact count_pairsArgs_other _ _ (by decide) (by decide) l

/-- The environment-variables segment never contains the launch-args flag token. -/
theorem launchflag_count_envVars (ev : Option (List (String × String))) :
    (envVarsArgs ev).count "--launch-args" = 0 := by
  cases ev with
  | none => rfl
  | some l =>
    rw [envVarsArgs_some]
    exact count_pairsArgs_other _ _ (by decide) (by decide) l

/-- Claim C4: a map-valued parameter of record_with_options with N entries
contributes exactly N occurrences of its flag, each followed by its own
"key=value" token, in the map's iteration order; the whole vector contains
exactly N occurrences of that flag (the other parameters are assumed not to
collide with the literal flag tokens). -/
theorem map_params_flattened (t d a o : String) (tl : Option Int)
    (topts ev : List (String × String)) (la : Option (List String))
    (h1 : "--template-option" ∉ record_base_cmd t d a o)
    (h2 : "--setenv" ∉ record_base_cmd t d a o)
    (h3 : "--template-option" ∉ timeLimitArgs tl)
    (h4 : "--setenv" ∉ timeLimitArgs tl)
    (h5 : "--template-option" ∉ launchArgsArgs la)
    (h6 : "--setenv" ∉ launchArgsArgs la) :
    record_with_options_cmd t d a o tl (some topts) la (some ev) =
      record_base_cmd t d a o ++ timeLimitArgs tl
        ++ pairsArgs "--template-option" topts
        ++ launchArgsArgs la
        ++ pairsArgs "--setenv" ev ∧
    (record_with_options_cmd t d a o tl (some topts) la (some ev)).count
      "--template-option" = topts.length ∧
    (record_with_options_cmd t d a o tl (some topts) la (some ev)).count
      "--setenv" = ev.length := by
  have hto : '=' ∈ ("--template-option" : String).data → False := by decide
  have hse : '=' ∈ ("--setenv" : String).data → False := by decide
  refine ⟨?_, ?_, ?_⟩
  · rw [record_with_options_cmd, templateOptionsArgs_some, envVarsArgs_some]
  · rw [record_with_options_cmd, templateOptionsArgs_some, envVarsArgs_some]
    simp only [List.count_append]
    rw [List.count_eq_zero.mpr h1, List.count_eq_zero.mpr h3,
      List.count_eq_zero.mpr h5,
      count_pairsArgs_self _ hto topts,
      count_pairsArgs_other _ _ (by decide) hto ev]
    omega
  · rw [record_with_options_cmd, templateOptionsArgs_some, envVarsArgs_some]
    simp only [List.count_append]
    rw [List.count_eq_zero.mpr h2, List.count_eq_zero.mpr h4,
      List.count_eq_zero.mpr h6,
      count_pairsArgs_self _ hse ev,
      count_pairsArgs_other _ _ (by decide) hse topts]
    omega

/-- Witness for C4 at concrete inputs: two template options and one
environment variable give two "--template-option" and one "--setenv" flags. -/
theorem map_params_flattened_witness :
    (record_with_options_cmd "T" "D" "A" "O" none
        (some [("k1", "v1"), ("k2", "v2")]) none (some [("HOME", "/tmp")])).count
      "--template-option" = 2 :=
  (map_params_flattened "T" "D" "A" "O" none [("k1", "v1"), ("k2", "v2")]
    [("HOME", "/tmp")] none (by decide) (by decide) (by decide) (by decide)
    (by decide) (by decide)).2.1

/-- Claim C9: a non-empty launch_args list contributes exactly one
"--launch-args" flag followed by the single token joining all launch arguments
with single spaces (other parameters assumed not to collide with the literal
flag token); consequently the distinct inputs ["a b"] and ["a", "b"] build
identical argument vectors. -/
theorem launch_args_joined (t d a o : String) (tl : Option Int)
    (topts : Option (List (String × String))) (la : List String)
    (ev : Option (List (String × String)))
    (hla : la ≠ [])
    (h1 : "--launch-args" ∉ record_base_cmd t d a o)
    (h2 : "--launch-args" ∉ timeLimitArgs tl)
    (h3 : String.intercalate " " la ≠ "--launch-args") :
    record_with_options_cmd t d a o tl topts (some la) ev =
      record_base_cmd t d a o ++ timeLimitArgs tl ++ templateOptionsArgs topts
        ++ ["--launch-args", String.intercalate " " la] ++ envVarsArgs ev ∧
    (record_with_options_cmd t d a o tl topts (some la) ev).count
      "--launch-args" = 1 ∧
    record_with_options_cmd t d a o tl topts (some ["a b"]) ev =
      record_with_options_cmd t d a o tl topts (some ["a", "b"]) ev := by
  have hseg : launchArgsArgs (some la) =
      ["--launch-args", String.intercalate " " la] := by
    cases la with
    | nil => exact absurd rfl hla
    | cons x xs => simp [launchArgsArgs]
  refine ⟨?_, ?_, ?_⟩
  · rw [record_with_options_cmd, hseg]
  · rw [record_with_options_cmd, hseg]
    simp only [List.count_append]
    rw [List.count_eq_zero.mpr h1, List.count_eq_zero.mpr h2,
      launchflag_count_templateOptions, launchflag_count_envVars]
    simp [List.count_cons, h3]
  · have hj : launchArgsArgs (some ["a b"]) = launchArgsArgs (some ["a", "b"]) := by
      decide
    rw [record_with_options_cmd, record_with_options_cmd, hj]

/-- Witness for C9 at concrete inputs. -/
theorem launch_args_joined_witness :
    (record_with_options_cmd "T" "D" "A" "O" none none
        (some ["--verbose", "1"]) none).count "--launch-args" = 1 :=
  (launch_args_joined "T" "D" "A" "O" none none ["--verbose", "1"] none
    (by decide) (by decide) (by decide) (by decide)).2.1

/-- Claim C1 is false as stated: `record` invokes `subprocess.run` without
`capture_output`, so the `stderr` attribute of the `CalledProcessError` is
`None`; a failing process whose stderr is "boom" yields the message
"Failed to record trace: None", which does not contain "boom". -/
theorem record_failure_message_lacks_stderr :
    record "T" "D" "A" "O" none (fun _ => ⟨"", "boom", 1⟩)
      = .error (.exc "Failed to record trace: None") ∧
    ¬ ("boom".data <:+: "Failed to record trace: None".data) :=
  ⟨rfl, by decide⟩

/-- Claim C1 (amended): on a non-zero exit status every operation fails; the
operations that pass `capture_output=True` raise an error whose message embeds
the captured standard-error text, while the trace operations invoked without
output capture (record, export, record_with_options, attach, diagnose_archive,
analyze_trace, compare_traces) raise an error embedding the placeholder "None"
in place of the standard-error text. -/
theorem process_failure_messages
    (parse : String → Except String PyJson) (run : List String → ProcOutput)
    (d tn pp p s c k b t a o tp ty ap od bt ct : String)
    (tl : Option Int) (dst : Option String)
    (topts ev : Option (List (String × String))) (laOpt : Option (List String))
    (pid : Int)
    (e1 : (run ["xcrun", "simctl", "boot", d]).exitCode ≠ 0)
    (e2 : (run ["xcrun", "simctl", "list", "devices", "--json"]).exitCode ≠ 0)
    (e3 : (run ["xcrun", "--show-sdk-path"]).exitCode ≠ 0)
    (e4 : (run ["xcrun", "--show-sdk-version"]).exitCode ≠ 0)
    (e5 : (run ["xcrun", "--show-sdk-platform-path"]).exitCode ≠ 0)
    (e6 : (run ["xcrun", "-f", tn]).exitCode ≠ 0)
    (e7 : (run ["xctrace", "list", "devices", "--json"]).exitCode ≠ 0)
    (e8 : (run ["xctrace", "list", "templates", "--json"]).exitCode ≠ 0)
    (e9 : (run ["xctrace", "document-template", "--template", t]).exitCode ≠ 0)
    (e10 : (run ["xcrun", "xcodebuild", "-showsdks", "-json"]).exitCode ≠ 0)
    (e11 : (run ["xcrun", "xcodebuild", "-list", "-project", pp, "-json"]).exitCode ≠ 0)
    (e12 : (run (xcodebuild_build_cmd p s c k dst)).exitCode ≠ 0)
    (e13 : (run ["xcrun", "swift-demangle", b]).exitCode ≠ 0)
    (e14 : (run ["xcrun", "otool", "-h", b]).exitCode ≠ 0)
    (e15 : (run ["xcrun", "otool", "-L", b]).exitCode ≠ 0)
    (e16 : (run ["xcrun", "nm", b]).exitCode ≠ 0)
    (e17 : (run (record_cmd t d a o tl)).exitCode ≠ 0)
    (e18 : (run ["xctrace", "export", "--input", tp, "--output", o, "--type", ty]).exitCode ≠ 0)
    (e19 : (run (record_with_options_cmd t d a o tl topts laOpt ev)).exitCode ≠ 0)
    (e20 : (run (attach_cmd pid t o tl)).exitCode ≠ 0)
    (e21 : (run ["xctrace", "diagnose", "--input", ap, "--output", od]).exitCode ≠ 0)
    (e22 : (run ["xctrace", "analyze", "--input", tp, "--output", od]).exitCode ≠ 0)
    (e23 : (run ["xctrace", "compare", "--base", bt, "--compare", ct, "--output", o]).exitCode ≠ 0) :
    (∃ m, boot_device d run = .error (.exc m) ∧
      (run ["xcrun", "simctl", "boot", d]).stderr.data <:+: m.data) ∧
    (∃ m, list_devices parse run = .error (.exc m) ∧
      (run ["xcrun", "simctl", "list", "devices", "--json"]).stderr.data <:+: m.data) ∧
    (∃ m, get_sdk_path run = .error (.exc m) ∧
      (run ["xcrun", "--show-sdk-path"]).stderr.data <:+: m.data) ∧
    (∃ m, get_sdk_version run = .error (.exc m) ∧
      (run ["xcrun", "--show-sdk-version"]).stderr.data <:+: m.data) ∧
    (∃ m, get_sdk_platform_path run = .error (.exc m) ∧
      (run ["xcrun", "--show-sdk-platform-path"]).stderr.data <:+: m.data) ∧
    (∃ m, find_developer_tool tn run = .error (.exc m) ∧
      (run ["xcrun", "-f", tn]).stderr.data <:+: m.data) ∧
    (∃ m, xctrace_list_devices parse run = .error (.exc m) ∧
      (run ["xctrace", "list", "devices", "--json"]).stderr.data <:+: m.data) ∧
    (∃ m, list_templates parse run = .error (.exc m) ∧
      (run ["xctrace", "list", "templates", "--json"]).stderr.data <:+: m.data) ∧
    (∃ m, document_template t o run = .error (.exc m) ∧
      (run ["xctrace", "document-template", "--template", t]).stderr.data <:+: m.data) ∧
    (∃ m, xcodebuild_list_sdks parse run = .error (.exc m) ∧
      (run ["xcrun", "xcodebuild", "-showsdks", "-json"]).stderr.data <:+: m.data) ∧
    (∃ m, xcodebuild_list_schemes pp parse run = .error (.exc m) ∧
      (run ["xcrun", "xcodebuild", "-list", "-project", pp, "-json"]).stderr.data <:+: m.data) ∧
    (∃ m, xcodebuild_build p s c k dst run = .error (.exc m) ∧
      (run (xcodebuild_build_cmd p s c k dst)).stderr.data <:+: m.data) ∧
    (∃ m, swift_symbols b run = .error (.exc m) ∧
      (run ["xcrun", "swift-demangle", b]).stderr.data <:+: m.data) ∧
    (∃ m, otool_headers b run = .error (.exc m) ∧
      (run ["xcrun", "otool", "-h", b]).stderr.data <:+: m.data) ∧
    (∃ m, otool_libraries b run = .error (.exc m) ∧
      (run ["xcrun", "otool", "-L", b]).stderr.data <:+: m.data) ∧
    (∃ m, nm_symbols b run = .error (.exc m) ∧
      (run ["xcrun", "nm", b]).stderr.data <:+: m.data) ∧
    record t d a o tl run = .error (.exc "Failed to record trace: None") ∧
    export_trace tp o ty run = .error (.exc "Failed to export trace: None") ∧
    record_with_options t d a o tl topts laOpt ev run =
      .error (.exc "Failed to record trace: None") ∧
    attach pid t o tl run = .error (.exc "Failed to attach tracer: None") ∧
    diagnose_archive ap od run = .error (.exc "Failed to diagnose archive: None") ∧
    analyze_trace tp od run = .error (.exc "Failed to analyze trace: None") ∧
    compare_traces bt ct o run = .error (.exc "Failed to compare traces: None") := by
  refine ⟨⟨_, ?_, infix_append_left "Failed to boot device: " _⟩,
    ⟨_, ?_, infix_append_left "Failed to list devices: " _⟩,
    ⟨_, ?_, infix_append_left "Failed to get SDK path: " _⟩,
    ⟨_, ?_, infix_append_left "Failed to get SDK version: " _⟩,
    ⟨_, ?_, infix_append_left "Failed to get SDK platform path: " _⟩,
    ⟨_, ?_, infix_append_left ("Failed to find tool " ++ tn ++ ": ") _⟩,
    ⟨_, ?_, infix_append_left "Failed to list devices: " _⟩,
    ⟨_, ?_, infix_append_left "Failed to list templates: " _⟩,
    ⟨_, ?_, infix_append_left "Failed to document template: " _⟩,
    ⟨_, ?_, infix_append_left "Failed to list SDKs: " _⟩,
    ⟨_, ?_, infix_append_left "Failed to list schemes: " _⟩,
    ⟨_, ?_, infix_append_left "Build failed: " _⟩,
    ⟨_, ?_, infix_append_left "Failed to extract symbols: " _⟩,
    ⟨_, ?_, infix_append_left "Failed to show headers: " _⟩,
    ⟨_, ?_, infix_append_left "Failed to show linked libraries: " _⟩,
    ⟨_, ?_, infix_append_left "Failed to show symbols: " _⟩,
    by simp [record, e17, capturedStderr, pyFStr],
    by simp [export_trace, e18, capturedStderr, pyFStr],
    by simp [record_with_options, e19, capturedStderr, pyFStr],
    by simp [attach, e20, capturedStderr, pyFStr],
    by simp [diagnose_archive, e21, capturedStderr, pyFStr],
    by simp [analyze_trace, e22, capturedStderr, pyFStr],
    by simp [compare_traces, e23, capturedStderr, pyFStr]⟩
  · simp [boot_device, e1, capturedStderr, pyFStr]
  · simp [list_devices, e2, capturedStderr, pyFStr]
  · simp [get_sdk_path, e3, capturedStderr, pyFStr]
  · simp [get_sdk_version, e4, capturedStderr, pyFStr]
  · simp [get_sdk_platform_path, e5, capturedStderr, pyFStr]
  · simp [find_developer_tool, e6, capturedStderr, pyFStr]
  · simp [xctrace_list_devices, e7, capturedStderr, pyFStr]
  · simp [list_templates, e8, capturedStderr, pyFStr]
  · simp [document_template, e9, capturedStderr, pyFStr]
  · simp [xcodebuild_list_sdks, e10, capturedStderr, pyFStr]
  · simp [xcodebuild_list_schemes, e11, capturedStderr, pyFStr]
  · simp [xcodebuild_build, e12, capturedStderr, pyFStr]
  · simp [swift_symbols, e13, capturedStderr, pyFStr]
  · simp [otool_headers, e14, capturedStderr, pyFStr]
  · simp [otool_libraries, e15, capturedStderr, pyFStr]
  · simp [nm_symbols, e16, capturedStderr, pyFStr]

/-- Witness for the amended C1 at a concrete process oracle that always exits 1
with stderr "err". -/
theorem process_failure_messages_witness :
    ∃ m, boot_device "D" (fun _ => ⟨"out", "err", 1⟩) = .error (.exc m) ∧
      "err".data <:+: m.data :=
  (process_failure_messages (fun _ => .error "x") (fun _ => ⟨"out", "err", 1⟩)
    "D" "tn" "pp" "p" "s" "c" "k" "b" "t" "a" "o" "tp" "ty" "ap" "od" "bt" "ct"
    none none none none none 7
    (by decide) (by decide) (by decide) (by decide) (by decide) (by decide)
    (by decide) (by decide) (by decide) (by decide) (by decide) (by decide)
    (by decide) (by decide) (by decide) (by decide) (by decide) (by decide)
    (by decide) (by decide) (by decide) (by decide) (by decide)).1

/-- Claim C6: for the JSON-shape operations, a zero-exit process whose stdout
the decoder rejects makes the operation fail with the decoder's error surfaced
as-is (a `jsonDecode` failure, never the operation's process-failure
exception); a decodable stdout yields the decoded document. -/
theorem json_shape_translation (parse : String → Except String PyJson)
    (run : List String → ProcOutput) (e : String) (j : PyJson)
    (h1 : (run ["xcrun", "simctl", "list", "devices", "--json"]).exitCode = 0)
    (h2 : (run ["xctrace", "list", "templates", "--json"]).exitCode = 0)
    (h3 : (run ["xcrun", "xcodebuild", "-showsdks", "-json"]).exitCode = 0) :
    (parse (run ["xcrun", "simctl", "list", "devices", "--json"]).stdout = .error e →
      list_devices parse run = .error (.jsonDecode e) ∧
      ∀ m, list_devices parse run ≠ .error (.exc m)) ∧
    (parse (run ["xcrun", "simctl", "list", "devices", "--json"]).stdout = .ok j →
      list_devices parse run = .ok j) ∧
    (parse (run ["xctrace", "list", "templates", "--json"]).stdout = .error e →
      list_templates parse run = .error (.jsonDecode e) ∧
      ∀ m, list_templates parse run ≠ .error (.exc m)) ∧
    (parse (run ["xctrace", "list", "templates", "--json"]).stdout = .ok j →
      list_templates parse run = .ok j) ∧
    (parse (run ["xcrun", "xcodebuild", "-showsdks", "-json"]).stdout = .error e →
      xcodebuild_list_sdks parse run = .error (.jsonDecode e) ∧
      ∀ m, xcodebuild_list_sdks parse run ≠ .error (.exc m)) ∧
    (parse (run ["xcrun", "xcodebuild", "-showsdks", "-json"]).stdout = .ok j →
      xcodebuild_list_sdks parse run = .ok j) := by
  refine ⟨fun hp => ⟨?_, ?_⟩, fun hp => ?_, fun hp => ⟨?_, ?_⟩, fun hp => ?_,
    fun hp => ⟨?_, ?_⟩, fun hp => ?_⟩ <;>
    simp [list_devices, list_templates, xcodebuild_list_sdks, h1, h2, h3, hp]

/-- Witness for C6 at a concrete decoder and process oracle. -/
theorem json_shape_translation_witness :
    list_devices (fun _ => .error "Expecting value")
      (fun _ => ⟨"\x7b\x22devices\x22:", "", 0⟩)
      = .error (.jsonDecode "Expecting value") :=
  ((json_shape_translation (fun _ => .error "Expecting value")
    (fun _ => ⟨"\x7b\x22devices\x22:", "", 0⟩) "Expecting value" (.obj [])
    rfl rfl rfl).1 rfl).1

/-- Claim C10 is false as stated: with a zero exit status and stdout decoding
to the object mapping "project" to the number 5 — a document that has no
"schemes" key under "project" — the operation does not return the empty list:
the attribute lookup `.get` on the non-dict value raises, and the call fails. -/
theorem list_schemes_nondict_project :
    xcodebuild_list_schemes "proj.xcodeproj"
      (fun s => if s = "\x7b\x22project\x22: 5\x7d" then .ok (.obj [("project", .num 5)])
        else .error "Expecting value")
      (fun _ => ⟨"\x7b\x22project\x22: 5\x7d", "", 0⟩)
      = .error (.attrError "AttributeError") := rfl

/-- Claim C10 (amended): when the process exits 0 and stdout decodes to an
object, a missing "project" key — or a "project" object missing the "schemes"
key — makes `xcodebuild_list_schemes` return the empty list rather than fail;
but a document that is not an object, or whose "project" value is not an
object, raises an AttributeError instead. -/
theorem list_schemes_defaults (pp : String)
    (parse : String → Except String PyJson) (run : List String → ProcOutput)
    (entries pentries : List (String × PyJson)) (n : Int) (elems : List PyJson)
    (h0 : (run ["xcrun", "xcodebuild", "-list", "-project", pp, "-json"]).exitCode = 0) :
    (parse (run ["xcrun", "xcodebuild", "-list", "-project", pp, "-json"]).stdout
        = .ok (.obj entries) →
      lookupStr entries "project" = none →
      xcodebuild_list_schemes pp parse run = .ok (.arr [])) ∧
    (parse (run ["xcrun", "xcodebuild", "-list", "-project", pp, "-json"]).stdout
        = .ok (.obj entries) →
      lookupStr entries "project" = some (.obj pentries) →
      lookupStr pentries "schemes" = none →
      xcodebuild_list_schemes pp parse run = .ok (.arr [])) ∧
    (parse (run ["xcrun", "xcodebuild", "-list", "-project", pp, "-json"]).stdout
        = .ok (.arr elems) →
      xcodebuild_list_schemes pp parse run = .error (.attrError "AttributeError")) ∧
    (parse (run ["xcrun", "xcodebuild", "-list", "-project", pp, "-json"]).stdout
        = .ok (.obj entries) →
      lookupStr entries "project" = some (.num n) →
      xcodebuild_list_schemes pp parse run = .error (.attrError "AttributeError")) := by
  refine ⟨fun hp hl => ?_, fun hp hl hl2 => ?_, fun hp => ?_, fun hp hl => ?_⟩
  · simp [xcodebuild_list_schemes, h0, hp, pyGet, hl, lookupStr]
  · simp [xcodebuild_list_schemes, h0, hp, pyGet, hl, hl2]
  · simp [xcodebuild_list_schemes, h0, hp, pyGet]
  · simp [xcodebuild_list_schemes, h0, hp, pyGet, hl]

/-- Witness for the amended C10: an object with no "project" key yields the
empty list. -/
theorem list_schemes_defaults_witness :
    xcodebuild_list_schemes "proj.xcodeproj" (fun _ => .ok (.obj []))
      (fun _ => ⟨"\x7b\x7d", "", 0⟩) = .ok (.arr []) :=
  ((list_schemes_defaults "proj.xcodeproj" (fun _ => .ok (.obj []))
    (fun _ => ⟨"\x7b\x7d", "", 0⟩) [] [] 0 [] rfl).1 rfl rfl)

/-- Claim C8 is false as stated: the wrapper code of `analyze_trace` itself
creates the output directory (`os.makedirs`) before spawning, and the wrapper
code of `document_template` itself writes the captured stdout to the output
file after a successful spawn — both effect traces contain a non-spawn
effect. -/
theorem wrapper_effects_not_only_spawn :
    onlySpawns (analyze_trace_effects "/a.trace" "/out") = false ∧
    onlySpawns (document_template_effects "Time Profiler" "/doc.md"
      (fun _ => ⟨"docs", "", 0⟩)) = false ∧
    analyze_trace_effects "/a.trace" "/out" =
      [Effect.makedirs "/out",
       Effect.spawn ["xctrace", "analyze", "--input", "/a.trace", "--output", "/out"]] ∧
    document_template_effects "Time Profiler" "/doc.md" (fun _ => ⟨"docs", "", 0⟩) =
      [Effect.spawn ["xctrace", "document-template", "--template", "Time Profiler"],
       Effect.fileWrite "/doc.md" "docs"] :=
  ⟨rfl, rfl, rfl, rfl⟩

/-- Claim C8 (amended): of the modelled operations, `boot_device`, `record`
and `compare_traces` spawn exactly one OS process and touch nothing else;
`analyze_trace` additionally creates its output directory before the spawn,
and `document_template` additionally writes the captured stdout to the output
path when the spawn succeeds (and touches nothing besides the spawn when it
fails). -/
theorem wrapper_effect_traces (run : List String → ProcOutput)
    (d t a o tp od : String) (tl : Option Int) :
    boot_device_effects d = [Effect.spawn ["xcrun", "simctl", "boot", d]] ∧
    record_effects t d a o tl = [Effect.spawn (record_cmd t d a o tl)] ∧
    compare_traces_effects tp o od =
      [Effect.spawn ["xctrace", "compare", "--base", tp,
        "--compare", o, "--output", od]] ∧
    onlySpawns (boot_device_effects d) = true ∧
    onlySpawns (record_effects t d a o tl) = true ∧
    onlySpawns (compare_traces_effects tp o od) = true ∧
    analyze_trace_effects tp od =
      [Effect.makedirs od,
       Effect.spawn ["xctrace", "analyze", "--input", tp, "--output", od]] ∧
    ((run ["xctrace", "document-template", "--template", t]).exitCode = 0 →
      document_template_effects t o run =
        [Effect.spawn ["xctrace", "document-template", "--template", t],
         Effect.fileWrite o
           (run ["xctrace", "document-template", "--template", t]).stdout]) ∧
    ((run ["xctrace", "document-template", "--template", t]).exitCode ≠ 0 →
      document_template_effects t o run =
        [Effect.spawn ["xctrace", "document-template", "--template", t]]) := by
  refine ⟨rfl, rfl, rfl, rfl, rfl, rfl, rfl, fun h => ?_, fun h => ?_⟩ <;>
    simp [document_template_effects, h]

/-- Witness for the amended C8 at concrete inputs: a successful
document-template run spawns once and then writes the captured stdout. -/
theorem wrapper_effect_traces_witness :
    document_template_effects "T" "O" (fun _ => ⟨"docs", "", 0⟩) =
      [Effect.spawn ["xctrace", "document-template", "--template", "T"],
       Effect.fileWrite "O" "docs"] :=
  (wrapper_effect_traces (fun _ => ⟨"docs", "", 0⟩) "D" "T" "A" "O" "/t.trace"
    "/out" none).2.2.2.2.2.2.2.1 rfl
